import Mathlib

/-!
Shallow embedding of the cloud-hypervisor process supervisor
(`src/ch/ch_process.c`) and proofs about its start/stop orchestration,
per-thread resource placement, vCPU setup and reconnection logic.

External collaborators (monitor, cgroup backend, host-device handling,
socket I/O) are modelled as oracles: environment records holding the
result each external call would return.  The control flow, checks and
state updates are translated from the C source.
-/

namespace CHProc

/-- A CPU mask: the set of host CPUs, as a list of CPU indices
(abstracting `virBitmap`). -/
abbrev Mask := List Nat

/-- Domain lifecycle states (the subset of `virDomainState` that
`ch_process.c` manipulates). -/
inductive VmLifecycle where
  | nostate
  | running
  | paused
  | shutdown
  | shutoff
  | pmsuspended
  deriving DecidableEq, Repr

/-- Reason code `VIR_DOMAIN_SHUTOFF_UNKNOWN`. -/
def VIR_DOMAIN_SHUTOFF_UNKNOWN : Nat := 0
/-- Reason code `VIR_DOMAIN_SHUTOFF_FAILED`. -/
def VIR_DOMAIN_SHUTOFF_FAILED : Nat := 6
/-- Reason code `VIR_DOMAIN_SHUTOFF_DAEMON`. -/
def VIR_DOMAIN_SHUTOFF_DAEMON : Nat := 8
/-- Reason code `VIR_DOMAIN_PAUSED_SHUTTING_DOWN`. -/
def VIR_DOMAIN_PAUSED_SHUTTING_DOWN : Nat := 8

/-- The observable per-domain state mutated by `ch_process.c`:
lifecycle state with its reason (`virDomainObjSetState` stores both),
`vm->pid`, `vm->def->id`, and whether `priv->monitor` is non-NULL. -/
structure VmState where
  lifecycle   : VmLifecycle
  stateReason : Nat
  pid         : Int
  defId       : Int
  hasMonitor  : Bool
  deriving DecidableEq, Repr

/-- Predicate `virDomainObjIsActive`: a domain is active while
`vm->def->id != -1`. -/
def virDomainObjIsActive (vm : VmState) : Bool :=
  vm.defId ≠ -1

/-- Linux errno `EBUSY`. -/
def EBUSY : Int := 16

/-- Oracle for the external calls made by `virCHProcessStop`:
the result of the i-th `chRemoveCgroup` attempt, and the results of the
two `unlink` calls in `chProcessRemoveDomainStatus` (negative means the
unlink failed). -/
structure StopEnv where
  removeCgroupRes : Nat → Int
  unlinkXmlRes    : Int
  unlinkPidRes    : Int

/-- Cgroup-removal retry loop of `virCHProcessStop`: call
`chRemoveCgroup`; on a `-EBUSY` failure sleep and retry while
`retries++ < 5`.  The first argument of the recursion is the number of
retries still allowed (starting at 5); returns the last removal result
and the number of attempts performed. -/
def chRemoveCgroupLoop (res : Nat → Int) : Nat → Nat → Int × Nat
  | 0, attempt => (res attempt, attempt + 1)
  | n + 1, attempt =>
      let r := res attempt
      if r < 0 ∧ r = -EBUSY then
        chRemoveCgroupLoop res n (attempt + 1)
      else
        (r, attempt + 1)

/-- Result of `virCHProcessStop`: the returned int, the domain state on
return, the number of `chRemoveCgroup` attempts made, and whether the
final removal outcome was a (warned-about, non-fatal) failure. -/
structure StopResult where
  ret          : Int
  vm           : VmState
  attempts     : Nat
  cgroupWarned : Bool
  deriving Repr

/-- `virCHProcessStop` (ch_process.c): close the monitor if present,
re-attach host devices, remove the cgroup with bounded retry on
`-EBUSY` (failures only warn), clear `vm->pid` and `vm->def->id`,
remove the on-disk status files (failures only warn), and set the
domain state to Shutoff with the supplied reason.  Always returns 0. -/
def virCHProcessStop (vm : VmState) (reason : Nat) (env : StopEnv) :
    StopResult :=
  let vm1 : VmState := { vm with hasMonitor := false }
  let lp := chRemoveCgroupLoop env.removeCgroupRes 5 0
  let vm2 : VmState := { vm1 with pid := -1, defId := -1 }
  let vm3 : VmState :=
    { vm2 with lifecycle := VmLifecycle.shutoff, stateReason := reason }
  { ret := 0
    vm := vm3
    attempts := lp.2
    cgroupWarned := decide (lp.1 < 0) }

/-! Resource placement engine: `virCHProcessSetupPid` and its callers. -/

/-- Thread roles handed to `virCgroupNewThread` (`virCgroupThreadName`). -/
inductive ThreadKind where
  | emulator
  | vcpu
  | iothread
  deriving DecidableEq, Repr

/-- Observable side effects of the placement engine, in the order they
are performed: cgroup sub-scope creation/removal, cpuset and bandwidth
writes, moving a thread into a scope, direct affinity and scheduler
calls, the call marker for `virCHProcessSetupVcpu`, and persisting the
domain record. -/
inductive Eff where
  | newThreadScope (k : ThreadKind) (id : Nat)
  | cpusetCpus (m : Mask)
  | cpusetMems (m : Mask)
  | bandwidth (p : Nat) (q : Int)
  | addThread (pid : Int)
  | setAffinity (pid : Int) (m : Mask)
  | setScheduler (pid : Int)
  | removeScope (k : ThreadKind) (id : Nat)
  | vcpuPlace (i : Nat)
  | persist
  deriving DecidableEq, Repr

/-- One vCPU of the domain definition: whether it is online and its
configured per-vCPU cpumask (`vcpu->cpumask`, nullable). -/
structure VcpuDef where
  online  : Bool
  cpumask : Option Mask
  deriving DecidableEq, Repr

/-- The domain-definition fields read by the placement engine:
placement mode, the domain-wide and auto-computed cpusets, the numatune
memory mode/nodeset, and the cputune tuning parameters. -/
structure DomCfg where
  placementAuto        : Bool
  defCpumask           : Option Mask
  autoCpuset           : Option Mask
  memStrict            : Bool
  memMask              : Option Mask
  numaNodeCount        : Nat
  period               : Nat
  quota                : Int
  vcpus                : List VcpuDef
  emulatorpin          : Option Mask
  emulatorPeriod       : Nat
  emulatorQuota        : Int
  emulatorSchedPresent : Bool
  iothreadPeriod       : Nat
  iothreadQuota        : Int

/-- Oracle for the external calls made by one `virCHProcessSetupPid`
invocation: cgroup controller availability, and the success of each
cgroup/affinity/scheduler operation.  `hostHasBitmap`/`hostOnline`
model `virHostCPUHasBitmap`/`virHostCPUGetOnlineBitmap`. -/
structure PidEnv where
  hasCpu          : Bool
  hasCpuset       : Bool
  formatNodesetOk : Bool
  newThreadOk     : Bool
  cpusetCpusOk    : Bool
  cpusetMemsOk    : Bool
  bandwidthOk     : Bool
  addThreadOk     : Bool
  hostHasBitmap   : Bool
  hostOnline      : Option Mask
  setAffinityOk   : Bool
  setSchedulerOk  : Bool

/-- Function `virCHProcessGetAllCpuAffinity`: the all-online-host-CPUs
bitmap, or no bitmap (with success) when the host has none, or failure
when the bitmap cannot be obtained. -/
def virCHProcessGetAllCpuAffinity (env : PidEnv) : Int × Option Mask :=
  if ¬ env.hostHasBitmap then (0, none)
  else
    match env.hostOnline with
    | none => (-1, none)
    | some m => (0, some m)

/-- Cpumask inference block of `virCHProcessSetupPid` (the chain of
branches setting `use_cpumask`/`affinity_cpumask`): returns
`(use_cpumask, affinity_cpumask)` or `none` when
`virCHProcessGetAllCpuAffinity` fails. -/
def setupPidInferMask (cfg : DomCfg) (cpumask : Option Mask)
    (env : PidEnv) : Option (Option Mask × Option Mask) :=
  match cpumask with
  | some m => some (some m, none)
  | none =>
    if cfg.placementAuto then some (cfg.autoCpuset, none)
    else
      match cfg.defCpumask with
      | some m => some (some m, none)
      | none =>
        let gac := virCHProcessGetAllCpuAffinity env
        if gac.1 < 0 then none else some (none, gac.2)

/-- Cpuset sub-block of the cgroup section of `virCHProcessSetupPid`:
with the sub-scope already created, apply the cpuset cpus restriction
(when a cpumask was inferred) and the cpuset memory-node mask (when one
was formatted), guarded by the CPUSET controller being present.
Failure effects include the sub-scope removal done by the cleanup
path. -/
def setupPidCpusetStep (nameval : ThreadKind) (id : Nat)
    (use_cpumask mem_mask : Option Mask) (env : PidEnv) :
    Except (List Eff) (List Eff) :=
  let acc : List Eff := [Eff.newThreadScope nameval id]
  let rmv : List Eff := [Eff.removeScope nameval id]
  if env.hasCpuset then
    match use_cpumask with
    | some m =>
      if ¬ env.cpusetCpusOk then Except.error (acc ++ rmv)
      else
        let acc2 := acc ++ [Eff.cpusetCpus m]
        match mem_mask with
        | some mm =>
          if ¬ env.cpusetMemsOk then Except.error (acc2 ++ rmv)
          else Except.ok (acc2 ++ [Eff.cpusetMems mm])
        | none => Except.ok acc2
    | none =>
      match mem_mask with
      | some mm =>
        if ¬ env.cpusetMemsOk then Except.error (acc ++ rmv)
        else Except.ok (acc ++ [Eff.cpusetMems mm])
      | none => Except.ok acc
  else Except.ok acc

/-- Cgroup block of `virCHProcessSetupPid` (guarded by a CPU or CPUSET
controller being present): format the strict-numatune node mask, create
the per-thread sub-scope, apply cpuset cpus/mems, apply bandwidth, move
the thread in.  On success returns the effects performed; on failure
returns the effects performed, including the sub-scope removal done by
the cleanup path when the sub-scope had been created. -/
def setupPidCgroupSection (cfg : DomCfg) (pid : Int)
    (nameval : ThreadKind) (id : Nat) (use_cpumask : Option Mask)
    (period : Nat) (quota : Int) (env : PidEnv) :
    Except (List Eff) (List Eff) :=
  if env.hasCpu ∨ env.hasCpuset then
    if cfg.memStrict ∧ ¬ env.formatNodesetOk then Except.error []
    else
      if ¬ env.newThreadOk then Except.error []
      else
        let rmv : List Eff := [Eff.removeScope nameval id]
        match setupPidCpusetStep nameval id use_cpumask
            (if cfg.memStrict then cfg.memMask else none) env with
        | Except.error e => Except.error e
        | Except.ok acc2 =>
          if period ≠ 0 ∨ quota ≠ 0 then
            if ¬ env.bandwidthOk then Except.error (acc2 ++ rmv)
            else
              let acc3 := acc2 ++ [Eff.bandwidth period quota]
              if ¬ env.addThreadOk then Except.error (acc3 ++ rmv)
              else Except.ok (acc3 ++ [Eff.addThread pid])
          else
            if ¬ env.addThreadOk then Except.error (acc2 ++ rmv)
            else Except.ok (acc2 ++ [Eff.addThread pid])
  else Except.ok []

/-- Function `virCHProcessSetupPid` (ch_process.c): reject bandwidth
tuning without a CPU controller, infer the cpumask, run the cgroup
block, apply the legacy affinity, and apply the scheduler policy except
for the emulator role; any failure after the sub-scope was created
removes the sub-scope.  Returns the C return value and the effects
performed. -/
def virCHProcessSetupPid (cfg : DomCfg) (pid : Int)
    (nameval : ThreadKind) (id : Nat) (cpumask : Option Mask)
    (period : Nat) (quota : Int) (sched : Bool) (env : PidEnv) :
    Int × List Eff :=
  if (period ≠ 0 ∨ quota ≠ 0) ∧ ¬ env.hasCpu then ((-1 : Int), [])
  else
    match setupPidInferMask cfg cpumask env with
    | none => ((-1 : Int), [])
    | some uc =>
      match setupPidCgroupSection cfg pid nameval id uc.1 period quota env with
      | Except.error e => ((-1 : Int), e)
      | Except.ok acc =>
        let failTail : List Eff :=
          if env.hasCpu ∨ env.hasCpuset then [Eff.removeScope nameval id]
          else []
        let affinity_cpumask : Option Mask :=
          match uc.2 with
          | some m => some m
          | none => uc.1
        match affinity_cpumask with
        | some m =>
          if ¬ env.setAffinityOk then ((-1 : Int), acc ++ failTail)
          else
            let acc2 := acc ++ [Eff.setAffinity pid m]
            if sched ∧ nameval ≠ ThreadKind.emulator then
              if ¬ env.setSchedulerOk then ((-1 : Int), acc2 ++ failTail)
              else ((0 : Int), acc2 ++ [Eff.setScheduler pid])
            else ((0 : Int), acc2)
        | none =>
          if sched ∧ nameval ≠ ThreadKind.emulator then
            if ¬ env.setSchedulerOk then ((-1 : Int), acc ++ failTail)
            else ((0 : Int), acc ++ [Eff.setScheduler pid])
          else ((0 : Int), acc)

/-- Effective-affinity precedence as the code implements it: explicit
per-thread mask, else the auto-computed cpuset when the placement mode
is automatic, else the domain-wide mask, else the all-online-host-CPUs
fallback obtained from `virCHProcessGetAllCpuAffinity`. -/
def chAffinityMask (cfg : DomCfg) (cpumask : Option Mask)
    (env : PidEnv) : Option Mask :=
  match cpumask with
  | some m => some m
  | none =>
    if cfg.placementAuto then cfg.autoCpuset
    else
      match cfg.defCpumask with
      | some m => some m
      | none => (virCHProcessGetAllCpuAffinity env).2

/-- Effective-affinity precedence exactly as the specification words
it: explicit per-thread mask, else the auto NUMA-derived mask when the
domain is single-NUMA-node with strict memory binding, else the
domain-wide mask, else the all-online-host-CPUs fallback. -/
def specEffectiveMask (cfg : DomCfg) (cpumask : Option Mask)
    (env : PidEnv) : Option Mask :=
  match cpumask with
  | some m => some m
  | none =>
    if cfg.numaNodeCount ≤ 1 ∧ cfg.memStrict then cfg.autoCpuset
    else
      match cfg.defCpumask with
      | some m => some m
      | none => (virCHProcessGetAllCpuAffinity env).2

/-- Modelled from the spec: `virBitmapEqual` (util/virbitmap.c, not
under src/) — two masks are equal when both are absent or both are
present with the same bits; an absent mask differs from a present
one. -/
def virBitmapEqual : Option Mask → Option Mask → Bool
  | none, none => true
  | some a, some b => a == b
  | _, _ => false

/-- Oracle for `virCHProcessSetupVcpus`/`virCHProcessSetupVcpu`:
the CPU-controller availability, whether per-vCPU thread ids were
reported (modelled from the spec: `virCHDomainHasVcpuPids`,
ch_domain.c, not under src/ — true when the hypervisor reported
per-thread identifiers for vCPUs), the tid of each vCPU
(`virCHDomainGetVcpuPid`), and the per-vCPU external-call results. -/
structure VcpusEnv where
  hasCpu      : Bool
  hasVcpuPids : Bool
  vcpuPid     : Nat → Int
  pidEnvs     : Nat → PidEnv

/-- Function `virCHProcessSetupVcpu`: per-vCPU placement through
`virCHProcessSetupPid` with the vCPU's cpumask, the domain cputune
period/quota, and the (always present) per-vCPU sched record. -/
def virCHProcessSetupVcpu (cfg : DomCfg) (env : VcpusEnv)
    (vcpuid : Nat) : Int × List Eff :=
  let vcpu := cfg.vcpus.getD vcpuid ⟨false, none⟩
  virCHProcessSetupPid cfg (env.vcpuPid vcpuid) ThreadKind.vcpu vcpuid
    vcpu.cpumask cfg.period cfg.quota true
    { env.pidEnvs vcpuid with hasCpu := env.hasCpu }

/-- Per-vCPU loop of `virCHProcessSetupVcpus`: walk the vCPU indices,
skip offline vCPUs, place each online one via `virCHProcessSetupVcpu`
(recording a `vcpuPlace` call marker), aborting on the first failure. -/
def setupVcpusLoop (cfg : DomCfg) (env : VcpusEnv) :
    Nat → Nat → Int × List Eff
  | _, 0 => ((0 : Int), [])
  | i, r + 1 =>
    match cfg.vcpus.get? i with
    | none => ((0 : Int), [])
    | some vcpu =>
      if ¬ vcpu.online then setupVcpusLoop cfg env (i + 1) r
      else
        let c := virCHProcessSetupVcpu cfg env i
        if c.1 < 0 then ((-1 : Int), Eff.vcpuPlace i :: c.2)
        else
          let rest := setupVcpusLoop cfg env (i + 1) r
          (rest.1, (Eff.vcpuPlace i :: c.2) ++ rest.2)

/-- Function `virCHProcessSetupVcpus` (ch_process.c): reject domain
period/quota without a CPU controller; when no per-vCPU thread ids are
available, reject any online vCPU whose custom cpumask differs from the
domain-wide mask and otherwise succeed without placement; when thread
ids are available, place every online vCPU. -/
def virCHProcessSetupVcpus (cfg : DomCfg) (env : VcpusEnv) :
    Int × List Eff :=
  if (cfg.period ≠ 0 ∨ cfg.quota ≠ 0) ∧ ¬ env.hasCpu then ((-1 : Int), [])
  else
    if ¬ env.hasVcpuPids then
      if cfg.vcpus.any (fun v => v.online && v.cpumask.isSome &&
            ! virBitmapEqual cfg.defCpumask v.cpumask) then
        ((-1 : Int), [])
      else ((0 : Int), [])
    else
      setupVcpusLoop cfg env 0 cfg.vcpus.length

/-! Thread-inventory setup: `virCHProcessSetupThreads` and its loops. -/

/-- Thread kinds reported by the monitor (`virCHThreadType`). -/
inductive CHThreadType where
  | vcpu
  | emulator
  | io
  | unknown
  deriving DecidableEq, Repr

/-- One cached monitor thread record (`virCHMonitorThreadInfo`). -/
structure MonThread where
  ttype : CHThreadType
  tid   : Int
  deriving DecidableEq, Repr

/-- Function `virCHProcessSetupEmulatorThread`: emulator placement with
the emulatorpin mask and emulator period/quota/sched tuning. -/
def virCHProcessSetupEmulatorThread (cfg : DomCfg) (env : PidEnv)
    (tid : Int) : Int × List Eff :=
  virCHProcessSetupPid cfg tid ThreadKind.emulator 0 cfg.emulatorpin
    cfg.emulatorPeriod cfg.emulatorQuota cfg.emulatorSchedPresent env

/-- Loop of `virCHProcessSetupEmulatorThreads`: place every monitor
thread whose type is Emulator, aborting on the first failure. -/
def setupEmulatorLoop (cfg : DomCfg) (emuEnvs : Nat → PidEnv) :
    Nat → List MonThread → Int × List Eff
  | _, [] => ((0 : Int), [])
  | i, t :: rest =>
    if t.ttype = CHThreadType.emulator then
      let c := virCHProcessSetupEmulatorThread cfg (emuEnvs i) t.tid
      if c.1 < 0 then ((-1 : Int), c.2)
      else
        let r := setupEmulatorLoop cfg emuEnvs (i + 1) rest
        (r.1, c.2 ++ r.2)
    else setupEmulatorLoop cfg emuEnvs (i + 1) rest

/-- Function `virCHProcessSetupIOThread`: IOThread placement keyed by
the iothread id, with the auto cpuset as explicit mask and the iothread
period/quota, and no scheduler tuning. -/
def virCHProcessSetupIOThread (cfg : DomCfg) (env : PidEnv)
    (iothreadId : Nat) : Int × List Eff :=
  virCHProcessSetupPid cfg (iothreadId : Int) ThreadKind.iothread
    iothreadId cfg.autoCpuset cfg.iothreadPeriod cfg.iothreadQuota
    false env

/-- Loop of `virCHProcessSetupIOThreads` over the monitor-reported
iothread ids, aborting on the first failure. -/
def setupIOThreadsLoop (cfg : DomCfg) (ioEnvs : Nat → PidEnv) :
    Nat → List Nat → Int × List Eff
  | _, [] => ((0 : Int), [])
  | i, tid :: rest =>
    let c := virCHProcessSetupIOThread cfg (ioEnvs i) tid
    if c.1 < 0 then ((-1 : Int), c.2)
    else
      let r := setupIOThreadsLoop cfg ioEnvs (i + 1) rest
      (r.1, c.2 ++ r.2)

/-- Oracle for `virCHProcessSetupThreads`: the thread-inventory refresh
result (`virCHMonitorRefreshThreadInfo`, negative = failure, otherwise
the thread count), the refreshed thread cache, the iothread ids, the
per-call external results, and the domain-record save result. -/
structure ThreadsEnv where
  refreshRes : Int
  threads    : List MonThread
  iothreads  : List Nat
  emuEnvs    : Nat → PidEnv
  ioEnvs     : Nat → PidEnv
  vcpusEnv   : VcpusEnv
  saveOk     : Bool

/-- Function `virCHProcessSetupThreads` (ch_process.c): refresh the
thread inventory, returning its result directly when it is not
positive; otherwise place emulator threads, iothreads and vCPUs in that
order and persist the domain record. -/
def virCHProcessSetupThreads (cfg : DomCfg) (env : ThreadsEnv) :
    Int × List Eff :=
  if env.refreshRes ≤ 0 then (env.refreshRes, [])
  else
    let e := setupEmulatorLoop cfg env.emuEnvs 0 env.threads
    if e.1 ≠ 0 then (e.1, e.2)
    else
      let io := setupIOThreadsLoop cfg env.ioEnvs 0 env.iothreads
      if io.1 ≠ 0 then (io.1, e.2 ++ io.2)
      else
        let v := virCHProcessSetupVcpus cfg env.vcpusEnv
        if v.1 ≠ 0 then (v.1, e.2 ++ io.2 ++ v.2)
        else
          if env.saveOk then
            ((0 : Int), e.2 ++ io.2 ++ v.2 ++ [Eff.persist])
          else ((-1 : Int), e.2 ++ io.2 ++ v.2)

/-! Monitor-state reconciliation and the reconnection task. -/

/-- Run-state string reported in the monitor's VM info
(`vm.info` state field); `other` stands for any unrecognised value. -/
inductive RawState where
  | created
  | running
  | shutdown
  | paused
  | other
  deriving DecidableEq, Repr

/-- Function `virCHProcessUpdateStatus`: map the monitor-reported state
string onto the domain state (reason 0); an absent or unrecognised
report leaves the state unchanged. -/
def virCHProcessUpdateStatus (vm : VmState) (report : Option RawState) :
    VmState :=
  match report with
  | none => vm
  | some RawState.created =>
    { vm with lifecycle := VmLifecycle.nostate, stateReason := 0 }
  | some RawState.running =>
    { vm with lifecycle := VmLifecycle.running, stateReason := 0 }
  | some RawState.shutdown =>
    { vm with lifecycle := VmLifecycle.shutdown, stateReason := 0 }
  | some RawState.paused =>
    { vm with lifecycle := VmLifecycle.pmsuspended, stateReason := 0 }
  | some RawState.other => vm

/-- Function `virCHProcessUpdateInfo`: query the monitor info (failure
propagates, leaving the state unchanged) and update the domain state
from it. -/
def virCHProcessUpdateInfo (vm : VmState) (infoOk : Bool)
    (report : Option RawState) : Int × VmState :=
  if ¬ infoOk then ((-1 : Int), vm)
  else ((0 : Int), virCHProcessUpdateStatus vm report)

/-- Events of the start orchestration and reconnection traces, in the
order the corresponding source calls are made. -/
inductive Event where
  | prepareHostdevs
  | connectMonitor
  | createVM
  | netSendFDs (i : Nat)
  | setupCgroup
  | initCpuAffinity
  | interfaceStartDevices
  | bootVM
  | refreshThreadInfo
  | updateInfo
  | setupThreads
  | setupGlobalCpuCgroup
  | setRunning (reason : Nat)
  | saveStatus
  | stopCalled (reason : Nat)
  deriving DecidableEq, Repr

/-- Oracle for `virCHProcessReconnect`: the result of each step of the
reconnection sequence, the monitor state report, and the stop-path
oracle. -/
structure ReconnectEnv where
  beginJobOk      : Bool
  hostdevUpdateOk : Bool
  monitorOpenOk   : Bool
  machineNameOk   : Bool
  connectCgroupOk : Bool
  infoOk          : Bool
  infoReport      : Option RawState
  saveOk          : Bool
  stopEnv         : StopEnv

/-- Error path of `virCHProcessReconnect`: if the domain still appears
active it is forcibly stopped with reason `unknown`. -/
def chReconnectError (vm : VmState) (env : ReconnectEnv) :
    VmState × List Event :=
  if virDomainObjIsActive vm then
    ((virCHProcessStop vm VIR_DOMAIN_SHUTOFF_UNKNOWN env.stopEnv).vm,
     [Event.stopCalled VIR_DOMAIN_SHUTOFF_UNKNOWN])
  else (vm, [])

/-- Function `virCHProcessReconnect` (ch_process.c): begin the job,
re-attach host devices, reopen the monitor, record the pid as the
domain id, derive the machine name and cgroup, update the state from
the monitor; if the domain then reports Shutdown (or Paused while
shutting down) finish the stop sequence with reason `daemon`; otherwise
persist the reconciled state.  Any step failure forces the
kill-and-mark-unknown fallback when the domain is still active. -/
def virCHProcessReconnect (vm0 : VmState) (env : ReconnectEnv) :
    VmState × List Event :=
  if ¬ env.beginJobOk then chReconnectError vm0 env
  else if ¬ env.hostdevUpdateOk then chReconnectError vm0 env
  else if ¬ env.monitorOpenOk then chReconnectError vm0 env
  else
    let vm1 : VmState := { vm0 with hasMonitor := true, defId := vm0.pid }
    if ¬ env.machineNameOk then chReconnectError vm1 env
    else if ¬ env.connectCgroupOk then chReconnectError vm1 env
    else
      let ui := virCHProcessUpdateInfo vm1 env.infoOk env.infoReport
      if ui.1 < 0 then chReconnectError ui.2 env
      else
        let vm2 := ui.2
        if vm2.lifecycle = VmLifecycle.shutdown ∨
           (vm2.lifecycle = VmLifecycle.paused ∧
            vm2.stateReason = VIR_DOMAIN_PAUSED_SHUTTING_DOWN) then
          ((virCHProcessStop vm2 VIR_DOMAIN_SHUTOFF_DAEMON env.stopEnv).vm,
           [Event.stopCalled VIR_DOMAIN_SHUTOFF_DAEMON])
        else
          if ¬ env.saveOk then chReconnectError vm2 env
          else (vm2, [])

/-! Network descriptor handoff and the start orchestration. -/

/-- Oracle for `chProcessAddNetworkDevices`: socket creation, socket
path length check and connect results, and the per-device JSON build,
descriptor send and HTTP response results. -/
structure NetEnv where
  socketOk    : Bool
  pathOk      : Bool
  connectOk   : Bool
  buildJsonOk : Nat → Bool
  sendOk      : Nat → Bool
  recvStatus  : Nat → Int

/-- Per-device loop of `chProcessAddNetworkDevices`: build the net
JSON, send the descriptor bundle (`netSendFDs i` marks a completed
send), and accept only HTTP status 200 or 204; the first failure aborts
without retracting already-sent devices. -/
def addNetLoop (env : NetEnv) : Nat → Nat → Int × List Event
  | 0, _ => ((0 : Int), [])
  | r + 1, i =>
    if ¬ env.buildJsonOk i then ((-1 : Int), [])
    else if ¬ env.sendOk i then ((-1 : Int), [])
    else
      let st := env.recvStatus i
      if st < 0 then ((-1 : Int), [Event.netSendFDs i])
      else if st ≠ 204 ∧ st ≠ 200 then ((-1 : Int), [Event.netSendFDs i])
      else
        let rest := addNetLoop env r (i + 1)
        (rest.1, Event.netSendFDs i :: rest.2)

/-- Function `chProcessAddNetworkDevices` (ch_process.c): open a fresh
local control-channel connection and hand every configured network
device's descriptor bundle to the hypervisor. -/
def chProcessAddNetworkDevices (nnets : Nat) (env : NetEnv) :
    Int × List Event :=
  if ¬ env.socketOk then ((-1 : Int), [])
  else if ¬ env.pathOk then ((-1 : Int), [])
  else if ¬ env.connectOk then ((-1 : Int), [])
  else addNetLoop env nnets 0

/-- Oracle for `virCHProcessStart`: the result of each orchestration
step, the network handoff oracle, the thread-setup oracle, and the
stop-path oracle used by the cleanup label. -/
structure StartEnv where
  hostdevPrepareOk  : Bool
  monitorNewOk      : Bool
  createVMOk        : Bool
  nnets             : Nat
  net               : NetEnv
  setupCgroupOk     : Bool
  initAffinityOk    : Bool
  interfaceStartOk  : Bool
  bootOk            : Bool
  infoOk            : Bool
  infoReport        : Option RawState
  threads           : ThreadsEnv
  globalCpuCgroupOk : Bool
  saveOk            : Bool
  stopEnv           : StopEnv

/-- Cleanup label of `virCHProcessStart`: `ret` is still -1 on every
path reaching it, so a full stop with shutoff reason `failed` is
performed before returning -1. -/
def startCleanup (vm : VmState) (env : StartEnv) (tr : List Event) :
    Int × VmState × List Event :=
  ((-1 : Int),
   (virCHProcessStop vm VIR_DOMAIN_SHUTOFF_FAILED env.stopEnv).vm,
   tr ++ [Event.stopCalled VIR_DOMAIN_SHUTOFF_FAILED])

/-- Function `virCHProcessStart` (ch_process.c): prepare host devices;
create the monitor connection and the VM when no monitor exists yet;
record the pid as the domain id; hand over the network descriptors;
set up the domain cgroup and whole-process affinity; bring host-side
network devices up (note: this step returns -1 directly on failure,
without the cleanup label); boot the VM; refresh the thread inventory
and update the state (results unchecked); run the per-thread placement;
set up the global CPU cgroup; mark the domain running and persist. -/
def virCHProcessStart (vm0 : VmState) (cfg : DomCfg) (reason : Nat)
    (env : StartEnv) : Int × VmState × List Event :=
  let tr0 : List Event := [Event.prepareHostdevs]
  if ¬ env.hostdevPrepareOk then startCleanup vm0 env tr0
  else
    let m0 : Bool × VmState × List Event :=
      if vm0.hasMonitor then (true, vm0, tr0)
      else if ¬ env.monitorNewOk then
        (false, vm0, tr0 ++ [Event.connectMonitor])
      else if ¬ env.createVMOk then
        (false, { vm0 with hasMonitor := true },
         tr0 ++ [Event.connectMonitor, Event.createVM])
      else
        (true, { vm0 with hasMonitor := true },
         tr0 ++ [Event.connectMonitor, Event.createVM])
    if ¬ m0.1 then startCleanup m0.2.1 env m0.2.2
    else
      let vmB : VmState := { m0.2.1 with defId := m0.2.1.pid }
      let net := chProcessAddNetworkDevices env.nnets env.net
      let trB := m0.2.2 ++ net.2
      if net.1 < 0 then startCleanup vmB env trB
      else
        let trC := trB ++ [Event.setupCgroup]
        if ¬ env.setupCgroupOk then startCleanup vmB env trC
        else
          let trD := trC ++ [Event.initCpuAffinity]
          if ¬ env.initAffinityOk then startCleanup vmB env trD
          else
            let trE := trD ++ [Event.interfaceStartDevices]
            if ¬ env.interfaceStartOk then ((-1 : Int), vmB, trE)
            else
              let trF := trE ++ [Event.bootVM]
              if ¬ env.bootOk then startCleanup vmB env trF
              else
                let trG := trF ++ [Event.refreshThreadInfo,
                                   Event.updateInfo]
                let vmC :=
                  (virCHProcessUpdateInfo vmB env.infoOk env.infoReport).2
                let st := virCHProcessSetupThreads cfg env.threads
                let trH := trG ++ [Event.setupThreads]
                if st.1 < 0 then startCleanup vmC env trH
                else
                  let trI := trH ++ [Event.setupGlobalCpuCgroup]
                  if ¬ env.globalCpuCgroupOk then startCleanup vmC env trI
                  else
                    let vmD : VmState :=
                      { vmC with lifecycle := VmLifecycle.running,
                                 stateReason := reason }
                    let trK := trI ++ [Event.setRunning reason,
                                       Event.saveStatus]
                    if ¬ env.saveOk then startCleanup vmD env trK
                    else ((0 : Int), vmD, trK)

/-! Concrete instances used by witnesses and counterexamples. -/

/-- Stop-path oracle where every external call succeeds. -/
def stopEnvOk : StopEnv :=
  { removeCgroupRes := fun _ => 0, unlinkXmlRes := 0, unlinkPidRes := 0 }

/-- Stop-path oracle where every cgroup-removal attempt reports
resource-busy. -/
def stopEnvBusy : StopEnv :=
  { removeCgroupRes := fun _ => -EBUSY, unlinkXmlRes := 0,
    unlinkPidRes := 0 }

/-- Placement oracle where every external call succeeds. -/
def pidEnvOk : PidEnv :=
  { hasCpu := true, hasCpuset := true, formatNodesetOk := true,
    newThreadOk := true, cpusetCpusOk := true, cpusetMemsOk := true,
    bandwidthOk := true, addThreadOk := true, hostHasBitmap := true,
    hostOnline := some [0, 1], setAffinityOk := true,
    setSchedulerOk := true }

/-- Placement oracle with no cgroup CPU controller available. -/
def pidEnvNoCpu : PidEnv := { pidEnvOk with hasCpu := false }

/-- A plain domain configuration: static placement, a domain-wide mask,
one online vCPU, no tuning. -/
def cfgSimple : DomCfg :=
  { placementAuto := false, defCpumask := some [0, 1],
    autoCpuset := none, memStrict := false, memMask := none,
    numaNodeCount := 1, period := 0, quota := 0,
    vcpus := [⟨true, none⟩], emulatorpin := none, emulatorPeriod := 0,
    emulatorQuota := 0, emulatorSchedPresent := false,
    iothreadPeriod := 0, iothreadQuota := 0 }

/-- Domain configuration requesting CPU bandwidth tuning. -/
def cfgBW : DomCfg := { cfgSimple with period := 1000 }

/-- The vCPU-setup oracle where thread ids were reported and every
external call succeeds. -/
def vcpusEnvOk : VcpusEnv :=
  { hasCpu := true, hasVcpuPids := true, vcpuPid := fun _ => 300,
    pidEnvs := fun _ => pidEnvOk }

/-- The vCPU-setup oracle with no cgroup CPU controller. -/
def vcpusEnvNoCpu : VcpusEnv := { vcpusEnvOk with hasCpu := false }

/-- Thread-setup oracle: three threads reported, one emulator thread,
no iothreads, everything succeeding. -/
def threadsEnvOk : ThreadsEnv :=
  { refreshRes := 3, threads := [⟨CHThreadType.emulator, 101⟩],
    iothreads := [], emuEnvs := fun _ => pidEnvOk,
    ioEnvs := fun _ => pidEnvOk, vcpusEnv := vcpusEnvOk,
    saveOk := true }

/-- Thread-setup oracle whose inventory refresh reports zero threads. -/
def threadsEnvZero : ThreadsEnv := { threadsEnvOk with refreshRes := 0 }

/-- Thread-setup oracle whose inventory refresh fails. -/
def threadsEnvNeg : ThreadsEnv := { threadsEnvOk with refreshRes := -1 }

/-! Lemmas about the cgroup-removal retry loop. -/

/-- The retry loop performs at most one attempt more than the allowed
number of retries. -/
theorem chRemoveCgroupLoop_attempts_le (res : Nat → Int) :
    ∀ n a, (chRemoveCgroupLoop res n a).2 ≤ a + n + 1 := by
  intro n
  induction n with
  | zero => intro a; simp [chRemoveCgroupLoop]
  | succ k ih =>
    intro a
    simp only [chRemoveCgroupLoop]
    split
    · have h := ih (a + 1)
      omega
    · simp

/-- Every attempt that was followed by a retry had reported
resource-busy. -/
theorem chRemoveCgroupLoop_busy (res : Nat → Int) :
    ∀ n a k, a ≤ k → k + 1 < (chRemoveCgroupLoop res n a).2 →
      res k = -EBUSY := by
  intro n
  induction n with
  | zero =>
    intro a k hak h
    simp [chRemoveCgroupLoop] at h
    omega
  | succ m ih =>
    intro a k hak h
    simp only [chRemoveCgroupLoop] at h
    split at h
    · rename_i hcond
      rcases Nat.eq_or_lt_of_le hak with heq | hlt
      · subst heq
        exact hcond.2
      · exact ih (a + 1) k hlt h
    · simp at h
      omega

/-- C2: every invocation of `virCHProcessStop`, with any reason and any
outcome of the cleanup sub-steps (cgroup removal, status-file
deletion), returns success and leaves the domain Shutoff with the
supplied reason and its process identifier cleared. -/
theorem stop_always_succeeds (vm : VmState) (reason : Nat)
    (env : StopEnv) :
    (virCHProcessStop vm reason env).ret = 0 ∧
    (virCHProcessStop vm reason env).vm.lifecycle = VmLifecycle.shutoff ∧
    (virCHProcessStop vm reason env).vm.stateReason = reason ∧
    (virCHProcessStop vm reason env).vm.pid = -1 :=
  ⟨rfl, rfl, rfl, rfl⟩

/-- C4: during `virCHProcessStop`, every cgroup-removal attempt that
was retried had failed with resource-busy, at most 6 attempts (5
retries) are performed, removal failure never fails the stop, and a
constant-busy oracle exhausts the bound exactly (6 attempts = 5
retries). -/
theorem cgroup_removal_bounded_retry (vm : VmState) (reason : Nat)
    (env : StopEnv) (k : Nat)
    (hk : k + 1 < (virCHProcessStop vm reason env).attempts) :
    env.removeCgroupRes k = -EBUSY ∧
    (virCHProcessStop vm reason env).attempts ≤ 6 ∧
    (virCHProcessStop vm reason env).ret = 0 ∧
    (chRemoveCgroupLoop (fun _ => -EBUSY) 5 0).2 = 6 := by
  have hatt : (virCHProcessStop vm reason env).attempts
      = (chRemoveCgroupLoop env.removeCgroupRes 5 0).2 := rfl
  refine ⟨?_, ?_, rfl, by decide⟩
  · exact chRemoveCgroupLoop_busy _ 5 0 k (Nat.zero_le k) (hatt ▸ hk)
  · rw [hatt]
    have h := chRemoveCgroupLoop_attempts_le env.removeCgroupRes 5 0
    omega

/-- Witness for C4 at a constant-busy oracle. -/
theorem cgroup_removal_bounded_retry_witness :
    stopEnvBusy.removeCgroupRes 0 = -EBUSY ∧
    (virCHProcessStop ⟨VmLifecycle.running, 1, 42, 42, true⟩ 3
      stopEnvBusy).attempts ≤ 6 ∧
    (virCHProcessStop ⟨VmLifecycle.running, 1, 42, 42, true⟩ 3
      stopEnvBusy).ret = 0 ∧
    (chRemoveCgroupLoop (fun _ => -EBUSY) 5 0).2 = 6 :=
  cgroup_removal_bounded_retry ⟨VmLifecycle.running, 1, 42, 42, true⟩ 3
    stopEnvBusy 0 (by decide)

/-- C8: stopping twice in a row yields the same terminal state as
stopping once, the second call also returns success, and the first call
already left no monitor connection. -/
theorem stop_idempotent (vm : VmState) (reason : Nat)
    (env env2 : StopEnv) :
    (virCHProcessStop (virCHProcessStop vm reason env).vm reason
      env2).vm = (virCHProcessStop vm reason env).vm ∧
    (virCHProcessStop (virCHProcessStop vm reason env).vm reason
      env2).ret = 0 ∧
    (virCHProcessStop vm reason env).vm.hasMonitor = false :=
  ⟨rfl, rfl, rfl⟩

/-- C5: requesting a nonzero CPU bandwidth period or quota while no
cgroup CPU controller is available makes `virCHProcessSetupPid` (and
the domain-level check of `virCHProcessSetupVcpus`) fail with a
configuration error before performing any effect. -/
theorem bandwidth_requires_cpu_controller (cfg : DomCfg) (pid : Int)
    (nameval : ThreadKind) (id : Nat) (cpumask : Option Mask)
    (period : Nat) (quota : Int) (sched : Bool) (env : PidEnv)
    (venv : VcpusEnv)
    (h1 : (period ≠ 0 ∨ quota ≠ 0) ∧ env.hasCpu = false)
    (h2 : (cfg.period ≠ 0 ∨ cfg.quota ≠ 0) ∧ venv.hasCpu = false) :
    virCHProcessSetupPid cfg pid nameval id cpumask period quota sched
      env = (-1, []) ∧
    virCHProcessSetupVcpus cfg venv = (-1, []) := by
  constructor
  · simp [virCHProcessSetupPid, h1.1, h1.2]
  · simp [virCHProcessSetupVcpus, h2.1, h2.2]

/-- Witness for C5 at a concrete bandwidth request without a CPU
controller. -/
theorem bandwidth_requires_cpu_controller_witness :
    virCHProcessSetupPid cfgBW 100 ThreadKind.vcpu 0 none 1000 0 true
      pidEnvNoCpu = (-1, []) ∧
    virCHProcessSetupVcpus cfgBW vcpusEnvNoCpu = (-1, []) :=
  bandwidth_requires_cpu_controller cfgBW 100 ThreadKind.vcpu 0 none
    1000 0 true pidEnvNoCpu vcpusEnvNoCpu (by decide) (by decide)

/-- C10: when the thread-inventory refresh reports zero threads,
`virCHProcessSetupThreads` returns success immediately with no
placement effect and no persisted record; a negative refresh result is
propagated as the failure result, also with no effect. -/
theorem setupThreads_zero_threads (cfg : DomCfg) (env : ThreadsEnv) :
    (env.refreshRes = 0 → virCHProcessSetupThreads cfg env = (0, [])) ∧
    (env.refreshRes < 0 →
      virCHProcessSetupThreads cfg env = (env.refreshRes, [])) := by
  constructor
  · intro h
    simp [virCHProcessSetupThreads, h]
  · intro h
    simp [virCHProcessSetupThreads, le_of_lt h]

/-- Witness for C10 at a zero-thread refresh and at a failed refresh. -/
theorem setupThreads_zero_threads_witness :
    virCHProcessSetupThreads cfgSimple threadsEnvZero = (0, []) ∧
    virCHProcessSetupThreads cfgSimple threadsEnvNeg = (-1, []) :=
  ⟨(setupThreads_zero_threads cfgSimple threadsEnvZero).1 rfl,
   (setupThreads_zero_threads cfgSimple threadsEnvNeg).2 (by decide)⟩

/-- C9: when every reconnection step up to the monitor-state query
succeeds and the queried state reports Shutdown — or Paused while
shutting down — the reconnection task finishes the stop sequence: the
domain ends Shutoff with reason daemon, never Running. -/
theorem reconnect_shutdown_finishes_stop (vm0 : VmState)
    (env : ReconnectEnv)
    (hb : env.beginJobOk = true) (hh : env.hostdevUpdateOk = true)
    (hm : env.monitorOpenOk = true) (hn : env.machineNameOk = true)
    (hc : env.connectCgroupOk = true) (hi : env.infoOk = true)
    (hst : (virCHProcessUpdateStatus
        { vm0 with hasMonitor := true, defId := vm0.pid }
        env.infoReport).lifecycle = VmLifecycle.shutdown ∨
      ((virCHProcessUpdateStatus
        { vm0 with hasMonitor := true, defId := vm0.pid }
        env.infoReport).lifecycle = VmLifecycle.paused ∧
       (virCHProcessUpdateStatus
        { vm0 with hasMonitor := true, defId := vm0.pid }
        env.infoReport).stateReason = VIR_DOMAIN_PAUSED_SHUTTING_DOWN)) :
    (virCHProcessReconnect vm0 env).1.lifecycle = VmLifecycle.shutoff ∧
    (virCHProcessReconnect vm0 env).1.stateReason
      = VIR_DOMAIN_SHUTOFF_DAEMON ∧
    (virCHProcessReconnect vm0 env).1.lifecycle ≠ VmLifecycle.running := by
  have hres : virCHProcessReconnect vm0 env =
      ((virCHProcessStop
          (virCHProcessUpdateStatus
            { vm0 with hasMonitor := true, defId := vm0.pid }
            env.infoReport)
          VIR_DOMAIN_SHUTOFF_DAEMON env.stopEnv).vm,
       [Event.stopCalled VIR_DOMAIN_SHUTOFF_DAEMON]) := by
    simp [virCHProcessReconnect, hb, hh, hm, hn, hc,
          virCHProcessUpdateInfo, hi, hst]
  rw [hres]
  exact ⟨rfl, rfl, by simp [virCHProcessStop]⟩

/-- A domain that was left running, to be reconnected. -/
def vmRun : VmState :=
  { lifecycle := VmLifecycle.running, stateReason := 1, pid := 88,
    defId := 88, hasMonitor := false }

/-- Reconnection oracle whose state query reports Shutdown. -/
def reconnEnvShutdown : ReconnectEnv :=
  { beginJobOk := true, hostdevUpdateOk := true, monitorOpenOk := true,
    machineNameOk := true, connectCgroupOk := true, infoOk := true,
    infoReport := some RawState.shutdown, saveOk := true,
    stopEnv := stopEnvOk }

/-- Witness for C9 at a reconnection whose query reports Shutdown. -/
theorem reconnect_shutdown_finishes_stop_witness :
    (virCHProcessReconnect vmRun reconnEnvShutdown).1.lifecycle
      = VmLifecycle.shutoff ∧
    (virCHProcessReconnect vmRun reconnEnvShutdown).1.stateReason
      = VIR_DOMAIN_SHUTOFF_DAEMON ∧
    (virCHProcessReconnect vmRun reconnEnvShutdown).1.lifecycle
      ≠ VmLifecycle.running :=
  reconnect_shutdown_finishes_stop vmRun reconnEnvShutdown rfl rfl rfl
    rfl rfl rfl (by decide)

/-- In a successful run of the per-vCPU loop, every online vCPU from
the remaining range received its `virCHProcessSetupVcpu` call. -/
theorem setupVcpusLoop_place (cfg : DomCfg) (env : VcpusEnv) :
    ∀ r i, (setupVcpusLoop cfg env i r).1 = 0 →
      ∀ t v, t < r → cfg.vcpus.get? (i + t) = some v →
        v.online = true →
        Eff.vcpuPlace (i + t) ∈ (setupVcpusLoop cfg env i r).2 := by
  intro r
  induction r with
  | zero =>
    intro i h t v ht
    omega
  | succ m ih =>
    intro i h t v ht hv hon
    rcases hget : cfg.vcpus.get? i with _ | vcpu
    · exfalso
      have hlen : cfg.vcpus.length ≤ i := List.get?_eq_none.mp hget
      have hnone : cfg.vcpus.get? (i + t) = none :=
        List.get?_eq_none.mpr (by omega)
      rw [hnone] at hv
      exact Option.noConfusion hv
    · have hget2 : cfg.vcpus[i]? = some vcpu := by
        rw [← List.get?_eq_getElem?]
        exact hget
      by_cases honl : vcpu.online
      · by_cases hcf : (virCHProcessSetupVcpu cfg env i).1 < 0
        · exfalso
          have hval : (setupVcpusLoop cfg env i (m + 1)).1 = -1 := by
            simp [setupVcpusLoop, hget2, honl, hcf]
          rw [hval] at h
          exact absurd h (by decide)
        · have hstep : setupVcpusLoop cfg env i (m + 1)
              = ((setupVcpusLoop cfg env (i + 1) m).1,
                 (Eff.vcpuPlace i :: (virCHProcessSetupVcpu cfg env i).2)
                   ++ (setupVcpusLoop cfg env (i + 1) m).2) := by
            simp [setupVcpusLoop, hget2, honl, hcf]
          cases t with
          | zero =>
            rw [hstep]
            simp
          | succ s =>
            rw [hstep] at h ⊢
            have harith : i + (s + 1) = (i + 1) + s := by omega
            have hmem := ih (i + 1) h s v (by omega)
              (by rw [← harith]; exact hv) hon
            exact List.mem_append.mpr
              (Or.inr (by rw [harith]; exact hmem))
      · have honl2 : vcpu.online = false := Bool.eq_false_iff.mpr honl
        have hstep : setupVcpusLoop cfg env i (m + 1)
            = setupVcpusLoop cfg env (i + 1) m := by
          simp [setupVcpusLoop, hget2, honl2]
        rw [hstep] at h ⊢
        cases t with
        | zero =>
          exfalso
          rw [Nat.add_zero, hget] at hv
          cases hv
          exact honl hon
        | succ s =>
          have harith : i + (s + 1) = (i + 1) + s := by omega
          rw [harith] at hv ⊢
          exact ih (i + 1) h s v (by omega) hv hon

/-- C6: without per-vCPU thread ids, `virCHProcessSetupVcpus` rejects
any online vCPU whose custom cpumask differs from the domain-wide mask
and otherwise succeeds without per-vCPU placement; with thread ids,
every online vCPU is placed through `virCHProcessSetupVcpu`. -/
theorem vcpu_affinity_requires_thread_ids (cfg : DomCfg)
    (env : VcpusEnv)
    (hguard : ¬ ((cfg.period ≠ 0 ∨ cfg.quota ≠ 0) ∧
      env.hasCpu = false)) :
    (env.hasVcpuPids = false →
      (∃ v ∈ cfg.vcpus, v.online = true ∧ v.cpumask.isSome = true ∧
        virBitmapEqual cfg.defCpumask v.cpumask = false) →
      virCHProcessSetupVcpus cfg env = (-1, [])) ∧
    (env.hasVcpuPids = false →
      (∀ v ∈ cfg.vcpus, v.online = true → v.cpumask.isSome = true →
        virBitmapEqual cfg.defCpumask v.cpumask = true) →
      virCHProcessSetupVcpus cfg env = (0, [])) ∧
    (env.hasVcpuPids = true →
      (virCHProcessSetupVcpus cfg env).1 = 0 →
      ∀ i, ∀ hi : i < cfg.vcpus.length,
        (cfg.vcpus.get ⟨i, hi⟩).online = true →
        Eff.vcpuPlace i ∈ (virCHProcessSetupVcpus cfg env).2) := by
  refine ⟨?_, ?_, ?_⟩
  · rintro hp ⟨v, hvmem, h1, h2, h3⟩
    have hany : (cfg.vcpus.any fun v => v.online && v.cpumask.isSome &&
        ! virBitmapEqual cfg.defCpumask v.cpumask) = true := by
      rw [List.any_eq_true]
      exact ⟨v, hvmem, by simp [h1, h2, h3]⟩
    simp [virCHProcessSetupVcpus, hguard, hp, hany]
  · intro hp hall
    have hany : (cfg.vcpus.any fun v => v.online && v.cpumask.isSome &&
        ! virBitmapEqual cfg.defCpumask v.cpumask) = false := by
      rw [Bool.eq_false_iff]
      intro hany
      obtain ⟨v, hm, hf⟩ := List.any_eq_true.mp hany
      simp only [Bool.and_eq_true, Bool.not_eq_true'] at hf
      obtain ⟨⟨ho, hs⟩, hne⟩ := hf
      rw [hall v hm ho hs] at hne
      exact Bool.noConfusion hne
    simp [virCHProcessSetupVcpus, hguard, hp, hany]
  · intro hp h0 i hi hon
    have heq : virCHProcessSetupVcpus cfg env
        = setupVcpusLoop cfg env 0 cfg.vcpus.length := by
      simp [virCHProcessSetupVcpus, hguard, hp]
    rw [heq] at h0 ⊢
    have hmem := setupVcpusLoop_place cfg env cfg.vcpus.length 0 h0 i
      (cfg.vcpus.get ⟨i, hi⟩) hi
      (by rw [Nat.zero_add]; exact List.get?_eq_get hi) hon
    simpa using hmem

/-- Domain configuration with one online vCPU whose custom cpumask
differs from the domain-wide mask. -/
def cfgRej : DomCfg := { cfgSimple with vcpus := [⟨true, some [5]⟩] }

/-- The vCPU-setup oracle where no per-vCPU thread ids were
reported. -/
def vcpusEnvNoPids : VcpusEnv :=
  { vcpusEnvOk with hasVcpuPids := false }

/-- Witness for C6: the differing custom affinity is rejected when no
thread ids are available. -/
theorem vcpu_affinity_requires_thread_ids_witness :
    virCHProcessSetupVcpus cfgRej vcpusEnvNoPids = (-1, []) :=
  (vcpu_affinity_requires_thread_ids cfgRej vcpusEnvNoPids
    (by decide)).1 rfl (by decide)

/-- Effects carried by either outcome of an `Except`-shaped step. -/
def exceptEffs : Except (List Eff) (List Eff) → List Eff
  | Except.error e => e
  | Except.ok a => a

/-- Whether an effect is one of the cgroup-block effects. -/
def isCgroupEff : Eff → Bool
  | Eff.newThreadScope _ _ => true
  | Eff.cpusetCpus _ => true
  | Eff.cpusetMems _ => true
  | Eff.bandwidth _ _ => true
  | Eff.addThread _ => true
  | Eff.removeScope _ _ => true
  | Eff.setAffinity _ _ => false
  | Eff.setScheduler _ => false
  | Eff.vcpuPlace _ => false
  | Eff.persist => false

/-- The cpuset sub-block performs cgroup effects only. -/
theorem setupPidCpusetStep_all_cgroup (nameval : ThreadKind) (id : Nat)
    (um mem_mask : Option Mask) (env : PidEnv) :
    (exceptEffs (setupPidCpusetStep nameval id um mem_mask
      env)).all isCgroupEff = true := by
  simp only [setupPidCpusetStep]
  repeat' split
  all_goals simp [exceptEffs, isCgroupEff]

/-- The cgroup block of `virCHProcessSetupPid` performs cgroup effects
only, on either outcome. -/
theorem setupPidCgroupSection_all_cgroup (cfg : DomCfg) (pid : Int)
    (nameval : ThreadKind) (id : Nat) (um : Option Mask) (period : Nat)
    (quota : Int) (env : PidEnv) :
    (exceptEffs (setupPidCgroupSection cfg pid nameval id um period
      quota env)).all isCgroupEff = true := by
  have h4 := setupPidCpusetStep_all_cgroup nameval id um
    (if cfg.memStrict then cfg.memMask else none) env
  simp only [setupPidCgroupSection]
  generalize hstep : setupPidCpusetStep nameval id um
    (if cfg.memStrict then cfg.memMask else none) env = step
  rw [hstep] at h4
  rcases step with e | acc2
  · repeat' split
    all_goals simp_all [exceptEffs, isCgroupEff]
  · simp only [exceptEffs] at h4
    repeat' split
    all_goals simp_all [exceptEffs, isCgroupEff]

/-- No direct affinity call happens inside the cgroup block. -/
theorem setupPidCgroupSection_no_affinity (cfg : DomCfg) (pid : Int)
    (nameval : ThreadKind) (id : Nat) (um : Option Mask) (period : Nat)
    (quota : Int) (env : PidEnv) (p : Int) (m : Mask) :
    Eff.setAffinity p m ∉
      exceptEffs (setupPidCgroupSection cfg pid nameval id um period
        quota env) := by
  intro hmem
  have hall := setupPidCgroupSection_all_cgroup cfg pid nameval id um
    period quota env
  rw [List.all_eq_true] at hall
  have hbad := hall _ hmem
  simp [isCgroupEff] at hbad

/-- The affinity mask resolved from the inference block agrees with the
code-level precedence `chAffinityMask`. -/
theorem setupPidInferMask_affinity (cfg : DomCfg)
    (cpumask : Option Mask) (env : PidEnv)
    (uc : Option Mask × Option Mask)
    (h : setupPidInferMask cfg cpumask env = some uc) :
    (match uc.2 with
     | some m => some m
     | none => uc.1) = chAffinityMask cfg cpumask env := by
  rcases cpumask with _ | mm
  · by_cases hauto : cfg.placementAuto
    · simp [setupPidInferMask, hauto] at h
      subst h
      simp [chAffinityMask, hauto]
    · rcases hdef : cfg.defCpumask with _ | dm
      · by_cases hg : (virCHProcessGetAllCpuAffinity env).1 < 0
        · simp [setupPidInferMask, hauto, hdef, hg] at h
        · simp [setupPidInferMask, hauto, hdef, hg] at h
          subst h
          rcases hgac : (virCHProcessGetAllCpuAffinity env).2 with _ | gm
          · simp [chAffinityMask, hauto, hdef, hgac]
          · simp [chAffinityMask, hauto, hdef, hgac]
      · simp [setupPidInferMask, hauto, hdef] at h
        subst h
        simp [chAffinityMask, hauto, hdef]
  · simp [setupPidInferMask] at h
    subst h
    simp [chAffinityMask]

/-- C7 (amended): whenever `virCHProcessSetupPid` applies a direct
affinity mask to the thread, that mask is resolved with the precedence
the code implements — explicit per-thread mask, else the auto-computed
cpuset when the CPU placement mode is automatic, else the domain-wide
mask, else the all-online-host-CPUs fallback — and it is applied to the
requested thread. -/
theorem effective_mask_precedence (cfg : DomCfg) (pid : Int)
    (nameval : ThreadKind) (id : Nat) (cpumask : Option Mask)
    (period : Nat) (quota : Int) (sched : Bool) (env : PidEnv)
    (p : Int) (m : Mask)
    (h : Eff.setAffinity p m ∈
      (virCHProcessSetupPid cfg pid nameval id cpumask period quota
        sched env).2) :
    some m = chAffinityMask cfg cpumask env ∧ p = pid := by
  unfold virCHProcessSetupPid at h
  by_cases hbw : (period ≠ 0 ∨ quota ≠ 0) ∧ ¬ env.hasCpu
  · rw [if_pos hbw] at h
    simp at h
  rw [if_neg hbw] at h
  rcases hinf : setupPidInferMask cfg cpumask env with _ | uc
  · rw [hinf] at h
    simp at h
  simp only [hinf] at h
  have hmaskEq := setupPidInferMask_affinity cfg cpumask env uc hinf
  have hnoacc := setupPidCgroupSection_no_affinity cfg pid nameval id
    uc.1 period quota env p m
  have hft : Eff.setAffinity p m ∉
      (if env.hasCpu ∨ env.hasCpuset
       then [Eff.removeScope nameval id] else ([] : List Eff)) := by
    split <;> simp
  rcases hsec : setupPidCgroupSection cfg pid nameval id uc.1 period
      quota env with e | acc
  · rw [hsec] at h hnoacc
    simp only [exceptEffs] at hnoacc
    exact absurd h hnoacc
  · rw [hsec] at h hnoacc
    simp only [exceptEffs] at hnoacc
    rcases huc2 : uc.2 with _ | am
    · simp only [huc2] at h hmaskEq
      rcases huc1 : uc.1 with _ | am
      · simp only [huc1] at h
        exfalso
        by_cases hs : sched ∧ nameval ≠ ThreadKind.emulator
        · rw [if_pos hs] at h
          by_cases hso : env.setSchedulerOk
          · rw [if_neg (not_not_intro hso)] at h
            rcases List.mem_append.mp h with h2 | h2
            · exact hnoacc h2
            · exact Eff.noConfusion (List.mem_singleton.mp h2)
          · rw [if_pos hso] at h
            rcases List.mem_append.mp h with h2 | h2
            · exact hnoacc h2
            · exact hft h2
        · rw [if_neg hs] at h
          exact hnoacc h
      · simp only [huc1] at h hmaskEq
        by_cases haff : env.setAffinityOk
        · rw [if_neg (not_not_intro haff)] at h
          by_cases hs : sched ∧ nameval ≠ ThreadKind.emulator
          · rw [if_pos hs] at h
            by_cases hso : env.setSchedulerOk
            · rw [if_neg (not_not_intro hso)] at h
              rcases List.mem_append.mp h with h2 | h2
              · rcases List.mem_append.mp h2 with h3 | h3
                · exact absurd h3 hnoacc
                · injection List.mem_singleton.mp h3 with h4 h5
                  subst h4
                  subst h5
                  exact ⟨hmaskEq, rfl⟩
              · exact Eff.noConfusion (List.mem_singleton.mp h2)
            · rw [if_pos hso] at h
              rcases List.mem_append.mp h with h2 | h2
              · rcases List.mem_append.mp h2 with h3 | h3
                · exact absurd h3 hnoacc
                · injection List.mem_singleton.mp h3 with h4 h5
                  subst h4
                  subst h5
                  exact ⟨hmaskEq, rfl⟩
              · exact absurd h2 hft
          · rw [if_neg hs] at h
            rcases List.mem_append.mp h with h2 | h2
            · exact absurd h2 hnoacc
            · injection List.mem_singleton.mp h2 with h4 h5
              subst h4
              subst h5
              exact ⟨hmaskEq, rfl⟩
        · rw [if_pos haff] at h
          rcases List.mem_append.mp h with h2 | h2
          · exact absurd h2 hnoacc
          · exact absurd h2 hft
    · simp only [huc2] at h hmaskEq
      by_cases haff : env.setAffinityOk
      · rw [if_neg (not_not_intro haff)] at h
        by_cases hs : sched ∧ nameval ≠ ThreadKind.emulator
        · rw [if_pos hs] at h
          by_cases hso : env.setSchedulerOk
          · rw [if_neg (not_not_intro hso)] at h
            rcases List.mem_append.mp h with h2 | h2
            · rcases List.mem_append.mp h2 with h3 | h3
              · exact absurd h3 hnoacc
              · injection List.mem_singleton.mp h3 with h4 h5
                subst h4
                subst h5
                exact ⟨hmaskEq, rfl⟩
            · exact Eff.noConfusion (List.mem_singleton.mp h2)
          · rw [if_pos hso] at h
            rcases List.mem_append.mp h with h2 | h2
            · rcases List.mem_append.mp h2 with h3 | h3
              · exact absurd h3 hnoacc
              · injection List.mem_singleton.mp h3 with h4 h5
                subst h4
                subst h5
                exact ⟨hmaskEq, rfl⟩
            · exact absurd h2 hft
        · rw [if_neg hs] at h
          rcases List.mem_append.mp h with h2 | h2
          · exact absurd h2 hnoacc
          · injection List.mem_singleton.mp h2 with h4 h5
            subst h4
            subst h5
            exact ⟨hmaskEq, rfl⟩
      · rw [if_pos haff] at h
        rcases List.mem_append.mp h with h2 | h2
        · exact absurd h2 hnoacc
        · exact absurd h2 hft

/-- Domain configuration separating the two candidate gating
conditions for the auto-computed mask: automatic CPU placement is on,
but the domain is not under strict memory binding (so the
specification's single-NUMA-plus-strict condition does not hold), and
the auto cpuset differs from the domain-wide mask. -/
def cexCfg : DomCfg :=
  { cfgSimple with
    placementAuto := true
    autoCpuset := some [0]
    defCpumask := some [1]
    numaNodeCount := 1
    memStrict := false }

/-- Counterexample for C7 as stated: with automatic placement but
without strict memory binding, the code applies the auto-computed
cpuset while the specification's precedence (gated on single-NUMA-node
with strict memory binding) names the domain-wide mask. -/
theorem effective_mask_precedence_counterexample :
    Eff.setAffinity 100 [0] ∈
      (virCHProcessSetupPid cexCfg 100 ThreadKind.vcpu 0 none 0 0 false
        pidEnvOk).2 ∧
    specEffectiveMask cexCfg none pidEnvOk = some [1] ∧
    Eff.setAffinity 100 [1] ∉
      (virCHProcessSetupPid cexCfg 100 ThreadKind.vcpu 0 none 0 0 false
        pidEnvOk).2 := by
  decide

/-- Witness for C7 (amended) at the same concrete placement call. -/
theorem effective_mask_precedence_witness :
    some [0] = chAffinityMask cexCfg none pidEnvOk ∧ (100 : Int) = 100 :=
  effective_mask_precedence cexCfg 100 ThreadKind.vcpu 0 none 0 0 false
    pidEnvOk 100 [0] (by decide)

/-- Every event emitted by the per-device handoff loop is a completed
descriptor send. -/
theorem addNetLoop_events_shape (env : NetEnv) :
    ∀ r i e, e ∈ (addNetLoop env r i).2 → ∃ j, e = Event.netSendFDs j := by
  intro r
  induction r with
  | zero =>
    intro i e he
    simp [addNetLoop] at he
  | succ m ih =>
    intro i e he
    simp only [addNetLoop] at he
    by_cases hb : env.buildJsonOk i
    case neg =>
      rw [if_pos hb] at he
      exact absurd he (by simp)
    rw [if_neg (not_not_intro hb)] at he
    by_cases hsn : env.sendOk i
    case neg =>
      rw [if_pos hsn] at he
      exact absurd he (by simp)
    rw [if_neg (not_not_intro hsn)] at he
    by_cases hr : env.recvStatus i < 0
    case pos =>
      rw [if_pos hr] at he
      have he2 : e = Event.netSendFDs i := by simpa using he
      exact ⟨i, he2⟩
    rw [if_neg hr] at he
    by_cases hst : env.recvStatus i ≠ 204 ∧ env.recvStatus i ≠ 200
    case pos =>
      rw [if_pos hst] at he
      have he2 : e = Event.netSendFDs i := by simpa using he
      exact ⟨i, he2⟩
    rw [if_neg hst] at he
    rcases List.mem_cons.mp he with he | he
    · exact ⟨i, he⟩
    · exact ih (i + 1) e he

/-- A handoff loop that did not fail sent every device in its range. -/
theorem addNetLoop_coverage (env : NetEnv) :
    ∀ r i, ¬ (addNetLoop env r i).1 < 0 →
      ∀ t, t < r → Event.netSendFDs (i + t) ∈ (addNetLoop env r i).2 := by
  intro r
  induction r with
  | zero =>
    intro i h t ht
    omega
  | succ m ih =>
    intro i h t ht
    simp only [addNetLoop] at h ⊢
    by_cases hb : env.buildJsonOk i
    case neg =>
      rw [if_pos hb] at h
      exact absurd (by decide) h
    rw [if_neg (not_not_intro hb)] at h ⊢
    by_cases hsn : env.sendOk i
    case neg =>
      rw [if_pos hsn] at h
      exact absurd (by decide) h
    rw [if_neg (not_not_intro hsn)] at h ⊢
    by_cases hr : env.recvStatus i < 0
    case pos =>
      rw [if_pos hr] at h
      exact absurd (show (-1 : Int) < 0 by decide) h
    rw [if_neg hr] at h ⊢
    by_cases hst : env.recvStatus i ≠ 204 ∧ env.recvStatus i ≠ 200
    case pos =>
      rw [if_pos hst] at h
      exact absurd (show (-1 : Int) < 0 by decide) h
    rw [if_neg hst] at h ⊢
    cases t with
    | zero => exact List.mem_cons_self _ _
    | succ s =>
      refine List.mem_cons_of_mem _ ?_
      have harith : i + (s + 1) = (i + 1) + s := by omega
      rw [harith]
      exact ih (i + 1) h s (by omega)

/-- Every event emitted by `chProcessAddNetworkDevices` is a completed
descriptor send. -/
theorem chProcessAddNetworkDevices_shape (nnets : Nat) (env : NetEnv)
    (e : Event) (he : e ∈ (chProcessAddNetworkDevices nnets env).2) :
    ∃ j, e = Event.netSendFDs j := by
  unfold chProcessAddNetworkDevices at he
  split_ifs at he
  all_goals try exact absurd he (by simp)
  exact addNetLoop_events_shape env nnets 0 e he

/-- A handoff that did not fail sent every configured device. -/
theorem chProcessAddNetworkDevices_coverage (nnets : Nat) (env : NetEnv)
    (h : ¬ (chProcessAddNetworkDevices nnets env).1 < 0) :
    ∀ i, i < nnets →
      Event.netSendFDs i ∈ (chProcessAddNetworkDevices nnets env).2 := by
  intro i hi
  unfold chProcessAddNetworkDevices at h ⊢
  split_ifs at h ⊢
  all_goals try exact absurd (by decide) h
  have hc := addNetLoop_coverage env nnets 0 h i hi
  simpa using hc

/-- C3: in every successful start, the trace splits into a prefix part
holding the completed descriptor send of every configured network
device and a later part holding the boot command: the network
descriptor handoff completes entirely before boot is issued. -/
theorem net_handoff_before_boot (vm0 : VmState) (cfg : DomCfg)
    (reason : Nat) (env : StartEnv)
    (h : (virCHProcessStart vm0 cfg reason env).1 = 0) :
    ∃ u v, (virCHProcessStart vm0 cfg reason env).2.2 = u ++ v ∧
      Event.bootVM ∉ u ∧ Event.bootVM ∈ v ∧
      ∀ i, i < env.nnets → Event.netSendFDs i ∈ u := by
  by_cases h1 : env.hostdevPrepareOk
  case neg =>
    exfalso
    simp [virCHProcessStart, startCleanup, h1] at h
  by_cases hnet : (chProcessAddNetworkDevices env.nnets env.net).1 < 0
  case neg => ?_
  case pos =>
    exfalso
    by_cases hm : vm0.hasMonitor
    · simp [virCHProcessStart, startCleanup, h1, hm, hnet] at h
    · by_cases h2 : env.monitorNewOk
      · by_cases h3 : env.createVMOk
        · simp [virCHProcessStart, startCleanup, h1, hm, h2, h3, hnet] at h
        · simp [virCHProcessStart, startCleanup, h1, hm, h2, h3] at h
      · simp [virCHProcessStart, startCleanup, h1, hm, h2] at h
  by_cases h4 : env.setupCgroupOk
  case neg =>
    exfalso
    by_cases hm : vm0.hasMonitor
    · simp [virCHProcessStart, startCleanup, h1, hm, hnet, h4] at h
    · by_cases h2 : env.monitorNewOk
      · by_cases h3 : env.createVMOk
        · simp [virCHProcessStart, startCleanup, h1, hm, h2, h3, hnet,
            h4] at h
        · simp [virCHProcessStart, startCleanup, h1, hm, h2, h3] at h
      · simp [virCHProcessStart, startCleanup, h1, hm, h2] at h
  by_cases h5 : env.initAffinityOk
  case neg =>
    exfalso
    by_cases hm : vm0.hasMonitor
    · simp [virCHProcessStart, startCleanup, h1, hm, hnet, h4, h5] at h
    · by_cases h2 : env.monitorNewOk
      · by_cases h3 : env.createVMOk
        · simp [virCHProcessStart, startCleanup, h1, hm, h2, h3, hnet,
            h4, h5] at h
        · simp [virCHProcessStart, startCleanup, h1, hm, h2, h3] at h
      · simp [virCHProcessStart, startCleanup, h1, hm, h2] at h
  by_cases h6 : env.interfaceStartOk
  case neg =>
    exfalso
    by_cases hm : vm0.hasMonitor
    · simp [virCHProcessStart, startCleanup, h1, hm, hnet, h4, h5,
        h6] at h
    · by_cases h2 : env.monitorNewOk
      · by_cases h3 : env.createVMOk
        · simp [virCHProcessStart, startCleanup, h1, hm, h2, h3, hnet,
            h4, h5, h6] at h
        · simp [virCHProcessStart, startCleanup, h1, hm, h2, h3] at h
      · simp [virCHProcessStart, startCleanup, h1, hm, h2] at h
  by_cases hboot : env.bootOk
  case neg =>
    exfalso
    by_cases hm : vm0.hasMonitor
    · simp [virCHProcessStart, startCleanup, h1, hm, hnet, h4, h5, h6,
        hboot] at h
    · by_cases h2 : env.monitorNewOk
      · by_cases h3 : env.createVMOk
        · simp [virCHProcessStart, startCleanup, h1, hm, h2, h3, hnet,
            h4, h5, h6, hboot] at h
        · simp [virCHProcessStart, startCleanup, h1, hm, h2, h3] at h
      · simp [virCHProcessStart, startCleanup, h1, hm, h2] at h
  have hsend := chProcessAddNetworkDevices_coverage env.nnets env.net hnet
  have hshape := chProcessAddNetworkDevices_shape env.nnets env.net
  have hnb : Event.bootVM ∉ (chProcessAddNetworkDevices env.nnets
      env.net).2 := by
    intro hmem
    rcases hshape Event.bootVM hmem with ⟨j, hj⟩
    exact Event.noConfusion hj
  by_cases hm : vm0.hasMonitor
  · refine ⟨[Event.prepareHostdevs] ++
      (chProcessAddNetworkDevices env.nnets env.net).2 ++
      [Event.setupCgroup, Event.initCpuAffinity,
       Event.interfaceStartDevices],
      [Event.bootVM, Event.refreshThreadInfo, Event.updateInfo,
       Event.setupThreads, Event.setupGlobalCpuCgroup,
       Event.setRunning reason, Event.saveStatus], ?_, ?_, ?_, ?_⟩
    · by_cases h7 : (virCHProcessSetupThreads cfg env.threads).1 < 0
      · exfalso
        simp [virCHProcessStart, startCleanup, h1, hm, hnet, h4, h5,
          h6, hboot, h7] at h
      · by_cases h8 : env.globalCpuCgroupOk
        · by_cases h9 : env.saveOk
          · simp [virCHProcessStart, startCleanup, h1, hm, hnet, h4,
              h5, h6, hboot, h7, h8, h9]
          · exfalso
            simp [virCHProcessStart, startCleanup, h1, hm, hnet, h4,
              h5, h6, hboot, h7, h8, h9] at h
        · exfalso
          simp [virCHProcessStart, startCleanup, h1, hm, hnet, h4, h5,
            h6, hboot, h7, h8] at h
    · intro hmem
      rcases List.mem_append.mp hmem with hmem | hmem
      · rcases List.mem_append.mp hmem with hmem | hmem
        · simp at hmem
        · exact hnb hmem
      · simp at hmem
    · simp
    · intro i hi
      simp only [List.mem_append]
      exact Or.inl (Or.inr (hsend i hi))
  · by_cases h2 : env.monitorNewOk
    case neg =>
      exfalso
      simp [virCHProcessStart, startCleanup, h1, hm, h2] at h
    by_cases h3 : env.createVMOk
    case neg =>
      exfalso
      simp [virCHProcessStart, startCleanup, h1, hm, h2, h3] at h
    refine ⟨[Event.prepareHostdevs, Event.connectMonitor,
        Event.createVM] ++
      (chProcessAddNetworkDevices env.nnets env.net).2 ++
      [Event.setupCgroup, Event.initCpuAffinity,
       Event.interfaceStartDevices],
      [Event.bootVM, Event.refreshThreadInfo, Event.updateInfo,
       Event.setupThreads, Event.setupGlobalCpuCgroup,
       Event.setRunning reason, Event.saveStatus], ?_, ?_, ?_, ?_⟩
    · by_cases h7 : (virCHProcessSetupThreads cfg env.threads).1 < 0
      · exfalso
        simp [virCHProcessStart, startCleanup, h1, hm, h2, h3, hnet,
          h4, h5, h6, hboot, h7] at h
      · by_cases h8 : env.globalCpuCgroupOk
        · by_cases h9 : env.saveOk
          · simp [virCHProcessStart, startCleanup, h1, hm, h2, h3,
              hnet, h4, h5, h6, hboot, h7, h8, h9]
          · exfalso
            simp [virCHProcessStart, startCleanup, h1, hm, h2, h3,
              hnet, h4, h5, h6, hboot, h7, h8, h9] at h
        · exfalso
          simp [virCHProcessStart, startCleanup, h1, hm, h2, h3, hnet,
            h4, h5, h6, hboot, h7, h8] at h
    · intro hmem
      rcases List.mem_append.mp hmem with hmem | hmem
      · rcases List.mem_append.mp hmem with hmem | hmem
        · simp at hmem
        · exact hnb hmem
      · simp at hmem
    · simp
    · intro i hi
      simp only [List.mem_append]
      exact Or.inl (Or.inr (hsend i hi))

/-- A domain about to be started: not running, no monitor, a pid
already recorded by the launcher. -/
def vmStart0 : VmState :=
  { lifecycle := VmLifecycle.nostate, stateReason := 0, pid := 77,
    defId := -1, hasMonitor := false }

/-- Network-handoff oracle where every external call succeeds. -/
def netEnvOk : NetEnv :=
  { socketOk := true, pathOk := true, connectOk := true,
    buildJsonOk := fun _ => true, sendOk := fun _ => true,
    recvStatus := fun _ => 204 }

/-- Start oracle where every step succeeds (one network device). -/
def startEnvOk : StartEnv :=
  { hostdevPrepareOk := true, monitorNewOk := true, createVMOk := true,
    nnets := 1, net := netEnvOk, setupCgroupOk := true,
    initAffinityOk := true, interfaceStartOk := true, bootOk := true,
    infoOk := true, infoReport := some RawState.running,
    threads := threadsEnvOk, globalCpuCgroupOk := true, saveOk := true,
    stopEnv := stopEnvOk }

/-- Start oracle where only the host-side network-device bring-up step
(`chInterfaceStartDevices`) fails. -/
def startEnvIfaceFail : StartEnv :=
  { startEnvOk with interfaceStartOk := false }

/-- Witness for C3 at a fully-successful concrete start. -/
theorem net_handoff_before_boot_witness :
    ∃ u v, (virCHProcessStart vmStart0 cfgSimple 1 startEnvOk).2.2
        = u ++ v ∧
      Event.bootVM ∉ u ∧ Event.bootVM ∈ v ∧
      ∀ i, i < startEnvOk.nnets → Event.netSendFDs i ∈ u :=
  net_handoff_before_boot vmStart0 cfgSimple 1 startEnvOk (by decide)

/-- Whether an event is an invocation of the stop sequence. -/
def isStopCalled : Event → Bool
  | Event.stopCalled _ => true
  | _ => false

/-- C1 (divergence evaluation): when `chInterfaceStartDevices` fails,
`virCHProcessStart` returns -1 directly (the source returns instead of
jumping to the cleanup label), so no stop is invoked, the monitor stays
connected, the pid stays recorded and the domain is not Shutoff — a
half-started hypervisor process lingers, contradicting the stated
failure policy. -/
theorem start_iface_fail_skips_stop :
    (virCHProcessStart vmStart0 cfgSimple 1 startEnvIfaceFail).1 = -1 ∧
    ((virCHProcessStart vmStart0 cfgSimple 1
        startEnvIfaceFail).2.2.filter isStopCalled) = [] ∧
    (virCHProcessStart vmStart0 cfgSimple 1
      startEnvIfaceFail).2.1.lifecycle ≠ VmLifecycle.shutoff ∧
    (virCHProcessStart vmStart0 cfgSimple 1
      startEnvIfaceFail).2.1.hasMonitor = true ∧
    (virCHProcessStart vmStart0 cfgSimple 1
      startEnvIfaceFail).2.1.pid = 77 := by
  decide

/-- By contrast, a failure at the boot step does reach the cleanup
label: the full stop with shutoff reason `failed` runs and the domain
ends Shutoff. -/
theorem start_boot_fail_stops :
    ((virCHProcessStart vmStart0 cfgSimple 1
        { startEnvOk with bootOk := false }).2.2.filter isStopCalled)
      = [Event.stopCalled VIR_DOMAIN_SHUTOFF_FAILED] ∧
    (virCHProcessStart vmStart0 cfgSimple 1
      { startEnvOk with bootOk := false }).2.1.lifecycle
      = VmLifecycle.shutoff := by
  decide

end CHProc
